import Mathlib

/-!
Verification development for the TempEmailPro front-end.

Each definition below is a shallow embedding of a function of the
repository; the section headers name the source file.  Times are
modelled as millisecond counts, JavaScript numbers holding counts or
intervals as naturals, and JavaScript timestamps as integers where a
comparison against an absent value matters.
-/

namespace TempEmailPro

/-! ### Polling hook — `useAdvancedPolling` (src/unnamed/part_011) -/

/-- Configuration of the polling hook (`PollingConfig`).  Intervals are
milliseconds. -/
structure PollingConfig where
  baseInterval : ℕ
  maxInterval : ℕ
  maxRetries : ℕ
  backoffMultiplier : ℕ
  isOnlinePollingEnabled : Bool
deriving Repr, DecidableEq

/-- The hook state kept in `useState<PollingState>`. -/
structure PollingState where
  isPolling : Bool
  isOnline : Bool
  consecutiveErrors : ℕ
  currentInterval : ℕ
  lastSuccessTime : Option ℕ
  lastErrorTime : Option ℕ
deriving Repr, DecidableEq

/-- A value thrown by the polling function: either an `Error` instance
carrying a message, or any other JavaScript value. -/
inductive Thrown where
  | errObj (msg : String)
  | nonError
deriving Repr, DecidableEq

/-- Coercion of a thrown value to the stored `Error` (part_011 line 96):
a non-Error value is replaced by a generic polling-failed `Error`;
this is the message of the `Error` handed to `setError`. -/
def Thrown.toErrorMsg : Thrown → String
  | .errObj m => m
  | .nonError => "Polling failed"

/-- The outcome of one awaited call of the polling function. -/
inductive PollOutcome (α : Type) where
  | success (v : α)
  | failure (e : Thrown)
deriving Repr, DecidableEq

/-- All React state touched by `executePolling`: the `PollingState`
plus the `data`, `error` and `loading` `useState` cells.  `error` keeps
the stored message of the `Error` object. -/
structure HookState (α : Type) where
  state : PollingState
  data : Option α
  error : Option String
  loading : Bool
deriving Repr, DecidableEq

/-- Embeds `calculateNextInterval` (part_011 lines 52-59): exponential backoff
capped at `maxInterval`. -/
def calculateNextInterval (cfg : PollingConfig) (errorCount : ℕ) : ℕ :=
  if errorCount = 0 then cfg.baseInterval
  else min (cfg.baseInterval * cfg.backoffMultiplier ^ (errorCount - 1)) cfg.maxInterval

/-- Embeds `executePolling` (part_011 lines 62-115) as a state transformer.
`active₁` and `active₂` are the two reads of `isActiveRef.current`
(lines 63 and 81/94), `now` is `Date.now()`, and `outcome` is what the
awaited `pollingFunction()` did.  The returned boolean records whether
the polling function was invoked.  The `finally` block resets
`loading` on every path that passed the guards. -/
def executePolling {α : Type} (cfg : PollingConfig) (active₁ active₂ : Bool)
    (now : ℕ) (st : HookState α) (outcome : PollOutcome α) : HookState α × Bool :=
  if active₁ = false then (st, false)
  else if cfg.isOnlinePollingEnabled = true ∧ st.state.isOnline = false then (st, false)
  else if cfg.maxRetries ≤ st.state.consecutiveErrors then (st, false)
  else
    let running : HookState α := { st with loading := true }
    let afterTry : HookState α :=
      match outcome with
      | .success v =>
          if active₂ = false then running
          else
            { running with
              data := some v
              error := none
              state := { running.state with
                consecutiveErrors := 0
                currentInterval := cfg.baseInterval
                lastSuccessTime := some now } }
      | .failure e =>
          if active₂ = false then running
          else
            let newErrorCount := running.state.consecutiveErrors + 1
            { running with
              error := some e.toErrorMsg
              state := { running.state with
                consecutiveErrors := newErrorCount
                currentInterval := calculateNextInterval cfg newErrorCount
                lastErrorTime := some now } }
    ({ afterTry with loading := false }, true)

/-- The inputs of one call of `executePolling` that vary per call. -/
structure PollStep (α : Type) where
  active₁ : Bool
  active₂ : Bool
  now : ℕ
  outcome : PollOutcome α
deriving Repr, DecidableEq

/-- A sequence of `executePolling` calls, threading the hook state. -/
def runPolls {α : Type} (cfg : PollingConfig) :
    List (PollStep α) → HookState α → HookState α
  | [], st => st
  | s :: rest, st =>
      runPolls cfg rest (executePolling cfg s.active₁ s.active₂ s.now st s.outcome).1

end TempEmailPro

namespace TempEmailPro

/-- C1: a run of `executePolling` that passes all three guards resets
`consecutiveErrors` to `0` and `currentInterval` to `baseInterval` on
success, and on failure increments `consecutiveErrors` to `n` and sets
`currentInterval` to `min (baseInterval * backoffMultiplier ^ (n-1)) maxInterval`. -/
theorem executePolling_backoff {α : Type} (cfg : PollingConfig) (now : ℕ)
    (st : HookState α) (v : α) (e : Thrown)
    (honline : cfg.isOnlinePollingEnabled = true → st.state.isOnline = true)
    (herr : st.state.consecutiveErrors < cfg.maxRetries) :
    ((executePolling cfg true true now st (.success v)).1.state.consecutiveErrors = 0 ∧
      (executePolling cfg true true now st (.success v)).1.state.currentInterval =
        cfg.baseInterval) ∧
    ((executePolling cfg true true now st (.failure e)).1.state.consecutiveErrors =
        st.state.consecutiveErrors + 1 ∧
      (executePolling cfg true true now st (.failure e)).1.state.currentInterval =
        min (cfg.baseInterval * cfg.backoffMultiplier ^ st.state.consecutiveErrors)
          cfg.maxInterval) := by
  have hnot : ¬ (cfg.isOnlinePollingEnabled = true ∧ st.state.isOnline = false) := by
    rintro ⟨h1, h2⟩
    exact absurd (honline h1) (by simp [h2])
  have hlt : ¬ cfg.maxRetries ≤ st.state.consecutiveErrors := Nat.not_le.mpr herr
  simp [executePolling, hnot, hlt, calculateNextInterval]

/-- A concrete polling configuration used by witness statements. -/
def cfgA : PollingConfig := ⟨10, 35, 5, 2, true⟩

/-- A concrete hook state (two consecutive errors so far). -/
def stA : HookState ℕ := ⟨⟨true, true, 2, 20, none, none⟩, none, none, false⟩

/-- Witness for C1 at a concrete configuration and state. -/
theorem executePolling_backoff_witness :
    (executePolling cfgA true true 7 stA (.failure .nonError)).1.state.currentInterval = 35 := by
  have h := executePolling_backoff (α := ℕ) cfgA 7 stA 0 .nonError
    (by intro _; rfl) (by decide)
  have h2 := h.2.2
  simpa [cfgA, stA] using h2

/-- C2: once `consecutiveErrors` has reached `maxRetries`, every call of
`executePolling` returns before invoking the polling function and leaves
the state unchanged; hence along any sequence of further calls the state
stays fixed and `consecutiveErrors` never exceeds `maxRetries`. -/
theorem executePolling_stops_after_maxRetries {α : Type} (cfg : PollingConfig)
    (st : HookState α) (h : st.state.consecutiveErrors = cfg.maxRetries) :
    (∀ (a₁ a₂ : Bool) (now : ℕ) (o : PollOutcome α),
        executePolling cfg a₁ a₂ now st o = (st, false)) ∧
    (∀ steps : List (PollStep α), runPolls cfg steps st = st) ∧
    (∀ steps : List (PollStep α),
        (runPolls cfg steps st).state.consecutiveErrors = cfg.maxRetries) := by
  have hle : cfg.maxRetries ≤ st.state.consecutiveErrors := le_of_eq h.symm
  have hstep : ∀ (a₁ a₂ : Bool) (now : ℕ) (o : PollOutcome α),
      executePolling cfg a₁ a₂ now st o = (st, false) := by
    intro a₁ a₂ now o
    cases a₁ with
    | false => simp [executePolling]
    | true =>
        by_cases hon : cfg.isOnlinePollingEnabled = true ∧ st.state.isOnline = false
        · simp [executePolling, hon]
        · simp [executePolling, hon, hle]
  have hrun : ∀ steps : List (PollStep α), runPolls cfg steps st = st := by
    intro steps
    induction steps with
    | nil => rfl
    | cons s rest ih => simp [runPolls, hstep, ih]
  exact ⟨hstep, hrun, fun steps => by simp [hrun steps, h]⟩

/-- A concrete polling configuration with `maxRetries = 3`. -/
def cfgB : PollingConfig := ⟨10, 35, 3, 2, true⟩

/-- A concrete hook state already at `maxRetries` consecutive errors. -/
def stB : HookState ℕ := ⟨⟨true, true, 3, 35, none, none⟩, none, none, false⟩

/-- Witness for C2 at a concrete state with `consecutiveErrors = maxRetries`. -/
theorem executePolling_stops_after_maxRetries_witness :
    runPolls cfgB ([⟨true, true, 4, .success 9⟩, ⟨true, true, 5, .failure .nonError⟩]) stB = stB := by
  exact (executePolling_stops_after_maxRetries cfgB stB (by rfl)).2.1
    ([⟨true, true, 4, .success 9⟩, ⟨true, true, 5, .failure .nonError⟩])

/-- C10: on a guard-passing run of `executePolling` with the hook still
mounted, a failure leaves `data` unchanged and stores the thrown error,
and a success clears `error` to `null` (and stores the result in `data`). -/
theorem executePolling_frame {α : Type} (cfg : PollingConfig) (now : ℕ)
    (st : HookState α) (v : α) (e : Thrown)
    (honline : cfg.isOnlinePollingEnabled = true → st.state.isOnline = true)
    (herr : st.state.consecutiveErrors < cfg.maxRetries) :
    ((executePolling cfg true true now st (.failure e)).1.data = st.data ∧
      (executePolling cfg true true now st (.failure e)).1.error = some e.toErrorMsg) ∧
    ((executePolling cfg true true now st (.success v)).1.error = none ∧
      (executePolling cfg true true now st (.success v)).1.data = some v) := by
  have hnot : ¬ (cfg.isOnlinePollingEnabled = true ∧ st.state.isOnline = false) := by
    rintro ⟨h1, h2⟩
    exact absurd (honline h1) (by simp [h2])
  have hlt : ¬ cfg.maxRetries ≤ st.state.consecutiveErrors := Nat.not_le.mpr herr
  simp [executePolling, hnot, hlt]

/-! ### Email service — `EmailService` (src/lib/email-service.ts) -/

/-- Per-tier limits (`EmailService.getUserLimits`, lines 335-344). -/
structure UserLimits where
  emailsPerDay : ℕ
  retentionHours : ℕ
  customDomains : Bool
deriving Repr, DecidableEq

/-- Embeds `getUserLimits` (lines 335-344): `limits[tier] || limits.free`. -/
def getUserLimits (tier : String) : UserLimits :=
  if tier = "free" then ⟨5, 1, false⟩
  else if tier = "quick" then ⟨25, 24, true⟩
  else if tier = "extended" then ⟨100, 168, true⟩
  else if tier = "pro" then ⟨500, 720, true⟩
  else ⟨5, 1, false⟩

/-- The `tier` field of `PREMIUM_DOMAINS` (lines 199-224): the tier a
premium domain requires, `none` for domains not in the table. -/
def PREMIUM_DOMAINS (domain : String) : Option String :=
  if domain = "techsci.dev" then some ("quick")
  else if domain = "techsci.xyz" then some ("quick")
  else if domain = "negoman.com" then some ("extended")
  else if domain = "techsci.tech" then some ("pro")
  else none

/-- The `tierOrder.indexOf` lookups in `canAccessDomain` (line 347-349):
JavaScript `indexOf` yields `-1` for an absent entry. -/
def tierIndex (t : String) : ℤ :=
  if t = "free" then 0
  else if t = "quick" then 1
  else if t = "extended" then 2
  else if t = "pro" then 3
  else -1

/-- Embeds `canAccessDomain` (lines 346-351). -/
def canAccessDomain (userTier requiredTier : String) : Bool :=
  tierIndex requiredTier ≤ tierIndex userTier

/-- The user record as read by the email service (`user.id`,
`user.subscription_tier`) and the trial service
(`user.subscription_expires_at`, a millisecond timestamp when set). -/
structure UserRec where
  id : String
  subscription_tier : String
  subscription_expires_at : Option ℤ
deriving Repr, DecidableEq

/-- The `options` argument of `EmailService.generateEmail`. -/
structure GenOptions where
  customDomain : Option String
  retentionHours : Option ℕ
deriving Repr, DecidableEq

/-- JavaScript `x || d` on an optional number: `0` is falsy. -/
def jsOrNat : Option ℕ → ℕ → ℕ
  | some n, d => if n = 0 then d else n
  | none, d => d

/-- One provider as it behaves during a single `generateEmail` call:
its identity plus the environment-chosen results of `isHealthy()` and
`generateEmail(domain?)` (the latter returns the address or throws). -/
structure ProviderRun where
  name : String
  supportCustomDomains : Bool
  healthy : Bool
  generate : Option String → Except String String

/-- The Mail.tm provider (lines 26-141) with environment-chosen network
behavior: `name` is `Mail.tm` and `supportCustomDomains = true`. -/
def mkMailTm (healthy : Bool) (generate : Option String → Except String String) :
    ProviderRun :=
  ⟨"Mail.tm", true, healthy, generate⟩

/-- The TempMail.lol provider (lines 144-196):
`name` is `TempMail.lol` and `supportCustomDomains = false`. -/
def mkTempMail (healthy : Bool) (generate : Option String → Except String String) :
    ProviderRun :=
  ⟨"TempMail.lol", false, healthy, generate⟩

/-- A record passed to `saveGeneratedEmail` (lines 286-290). -/
structure SavedEmail where
  userId : String
  email : String
  expiresAt : ℕ
  provider : String
  customDomain : Option String
  retentionHours : ℕ
deriving Repr, DecidableEq

/-- A record passed to `trackUsage` (lines 293-298). -/
structure UsageEvent where
  userId : String
  action : String
  provider : String
  customDomainFlag : Bool
  retentionHours : ℕ
  tier : String
deriving Repr, DecidableEq

/-- Modelled from the spec: `saveGeneratedEmail` and `trackUsage`
(lines 362-381) are `TODO` Supabase stubs that only log.  The spec
describes this layer as sequential conditionals around third-party SDK
calls (Supabase), so persistence is modelled as appending the records
the code hands those stubs. -/
structure ServiceState where
  savedEmails : List SavedEmail
  usageEvents : List UsageEvent
deriving Repr, DecidableEq

/-- The value `generateEmail` resolves with (lines 300-304). -/
structure GenResult where
  email : String
  expiresAt : ℕ
  provider : String
deriving Repr, DecidableEq

/-- The errors `generateEmail` can throw: `PremiumFeatureRequired`
(lines 384-393) or a plain `Error` with a message. -/
inductive EmailErr where
  | premiumFeatureRequired (message : String) (upgradeUrl : String)
  | failure (message : String)
deriving Repr, DecidableEq

/-- Line 312 of src/lib/email-service.ts. -/
def allProvidersUnavailableMsg : String :=
  "All email providers are currently unavailable. Please try again in a few minutes."

/-- The provider loop of `generateEmail` (lines 267-312).  Besides the
result and post-state it returns the list of providers whose
`isHealthy()` was invoked, in order. -/
def tryProviders (user : UserRec) (opts : GenOptions) (limits : UserLimits) (now : ℕ) :
    List ProviderRun → ServiceState → List String →
      Except EmailErr GenResult × ServiceState × List String
  | [], st, contacted => (.error (.failure allProvidersUnavailableMsg), st, contacted)
  | p :: rest, st, contacted =>
      let contacted' := contacted ++ [p.name]
      if p.healthy = true then
        match p.generate (if opts.customDomain.isSome ∧ p.supportCustomDomains = true
            then opts.customDomain else none) with
        | .ok email =>
            let retentionHours :=
              min (jsOrNat opts.retentionHours limits.retentionHours) limits.retentionHours
            let expiresAt := now + retentionHours * 60 * 60 * 1000
            let st' : ServiceState :=
              { savedEmails := st.savedEmails ++
                  [⟨user.id, email, expiresAt, p.name, opts.customDomain, retentionHours⟩]
                usageEvents := st.usageEvents ++
                  [⟨user.id, "email_generated", p.name, opts.customDomain.isSome,
                    retentionHours, user.subscription_tier⟩] }
            (.ok ⟨email, expiresAt, p.name⟩, st', contacted')
        | .error _ => tryProviders user opts limits now rest st contacted'
      else tryProviders user opts limits now rest st contacted'

/-- Embeds `EmailService.generateEmail` (lines 233-313).  `todayCount` is the
value of `getTodayEmailCount` (a `TODO` Supabase stub in the source,
modelled as an input), `providers` the provider list, `now` is
`Date.now()`.  Returns the result or thrown error, the post-state, and
the providers contacted. -/
def EmailService.generateEmail (user : UserRec) (opts : GenOptions) (todayCount : ℕ)
    (providers : List ProviderRun) (now : ℕ) (st : ServiceState) :
    Except EmailErr GenResult × ServiceState × List String :=
  let limits := getUserLimits user.subscription_tier
  if limits.emailsPerDay ≤ todayCount then
    (.error (.premiumFeatureRequired
      ("Daily limit of " ++ toString limits.emailsPerDay ++
        " emails reached. Upgrade to generate more emails.") ("/pricing")), st, [])
  else if opts.customDomain.isSome ∧ limits.customDomains = false then
    (.error (.premiumFeatureRequired
      ("Custom domains require a premium subscription.") ("/pricing")), st, [])
  else
    match opts.customDomain with
    | some d =>
        match PREMIUM_DOMAINS d with
        | some req =>
            if canAccessDomain user.subscription_tier req = false then
              (.error (.premiumFeatureRequired
                ("Domain " ++ d ++ " requires " ++ req ++ " plan or higher.")
                ("/pricing")), st, [])
            else tryProviders user opts limits now providers st []
        | none => tryProviders user opts limits now providers st []
    | none => tryProviders user opts limits now providers st []

/-- A concrete polling configuration with online polling disabled. -/
def cfgC : PollingConfig := ⟨10, 35, 5, 2, false⟩

/-- A concrete hook state holding previously fetched data. -/
def stC : HookState ℕ := ⟨⟨true, false, 0, 10, none, none⟩, some 42, none, false⟩

/-- Witness for C10 at a concrete configuration and state. -/
theorem executePolling_frame_witness :
    (executePolling cfgC true true 7 stC (.failure (.errObj ("boom")))).1.data = some 42 := by
  have h := executePolling_frame cfgC 7 stC (0 : ℕ) (.errObj ("boom"))
    (by intro hc; cases hc) (by decide)
  exact h.1.1

/-! ### Theorems about the email service -/

/-- Rewriting `if o.isSome then o else none` to `o`: the domain argument passed
to a provider that supports custom domains is exactly
`options?.customDomain`. -/
lemma optionIfIsSome {α : Type} (o : Option α) :
    (if o.isSome = true then o else none) = o := by
  cases o <;> simp

/-- C5: when the daily email count has reached the per-tier
`emailsPerDay` limit, `generateEmail` throws `PremiumFeatureRequired`,
contacts no provider, and leaves the service state unchanged; the
per-tier limits are 5/25/100/500 and an unrecognized tier gets the
free limits. -/
theorem generateEmail_daily_limit (user : UserRec) (opts : GenOptions)
    (providers : List ProviderRun) (todayCount now : ℕ) (st : ServiceState)
    (h : (getUserLimits user.subscription_tier).emailsPerDay ≤ todayCount) :
    (∃ m u, (EmailService.generateEmail user opts todayCount providers now st).1 =
        .error (.premiumFeatureRequired m u)) ∧
    (EmailService.generateEmail user opts todayCount providers now st).2.1 = st ∧
    (EmailService.generateEmail user opts todayCount providers now st).2.2 = [] ∧
    (getUserLimits ("free")).emailsPerDay = 5 ∧
    (getUserLimits ("quick")).emailsPerDay = 25 ∧
    (getUserLimits ("extended")).emailsPerDay = 100 ∧
    (getUserLimits ("pro")).emailsPerDay = 500 ∧
    (∀ t, t ∉ (["free", "quick", "extended", "pro"] : List String) →
        getUserLimits t = getUserLimits ("free")) := by
  have hres : EmailService.generateEmail user opts todayCount providers now st =
      (.error (.premiumFeatureRequired
        ("Daily limit of " ++ toString (getUserLimits user.subscription_tier).emailsPerDay ++
          " emails reached. Upgrade to generate more emails.") ("/pricing")), st, []) := by
    unfold EmailService.generateEmail
    simp [h]
  refine ⟨⟨_, _, by rw [hres]⟩, by rw [hres], by rw [hres], by decide, by decide,
    by decide, by decide, ?_⟩
  intro t ht
  simp only [List.mem_cons, List.not_mem_nil, or_false, not_or] at ht
  obtain ⟨h1, h2, h3, h4⟩ := ht
  simp [getUserLimits, h1, h2, h3, h4]

/-- A concrete user on the free tier. -/
def userW : UserRec := ⟨"u1", "free", none⟩

/-- Witness for C5: a free user with 5 emails generated today. -/
theorem generateEmail_daily_limit_witness :
    (EmailService.generateEmail userW ⟨none, none⟩ 5 [] 0 ⟨[], []⟩).2.1 = ⟨[], []⟩ ∧
    (EmailService.generateEmail userW ⟨none, none⟩ 5 [] 0 ⟨[], []⟩).2.2 = [] := by
  have h := generateEmail_daily_limit userW ⟨none, none⟩ [] 5 0 ⟨[], []⟩ (by decide)
  exact ⟨h.2.1, h.2.2.1⟩

/-- C4: `generateEmail` tries Mail.tm first and TempMail.lol second;
TempMail.lol is contacted only if Mail.tm did not succeed, a success
carries the name of the first provider that succeeded, and the
"all providers unavailable" error is thrown iff neither succeeds. -/
theorem generateEmail_provider_fallback (user : UserRec) (opts : GenOptions)
    (todayCount now : ℕ) (st : ServiceState) (mtH tmH : Bool)
    (mtG tmG : Option String → Except String String)
    (hcount : todayCount < (getUserLimits user.subscription_tier).emailsPerDay)
    (hdom : opts.customDomain.isSome →
      (getUserLimits user.subscription_tier).customDomains = true)
    (htier : ∀ d req, opts.customDomain = some d → PREMIUM_DOMAINS d = some req →
      canAccessDomain user.subscription_tier req = true) :
    ((∃ em, mtH = true ∧ mtG opts.customDomain = .ok em) →
      ∃ res, (EmailService.generateEmail user opts todayCount
          [mkMailTm mtH mtG, mkTempMail tmH tmG] now st).1 = .ok res ∧
        res.provider = "Mail.tm") ∧
    (¬ (∃ em, mtH = true ∧ mtG opts.customDomain = .ok em) →
      (∃ em, tmH = true ∧ tmG none = .ok em) →
      ∃ res, (EmailService.generateEmail user opts todayCount
          [mkMailTm mtH mtG, mkTempMail tmH tmG] now st).1 = .ok res ∧
        res.provider = "TempMail.lol") ∧
    ("TempMail.lol" ∈ (EmailService.generateEmail user opts todayCount
        [mkMailTm mtH mtG, mkTempMail tmH tmG] now st).2.2 →
      ¬ (∃ em, mtH = true ∧ mtG opts.customDomain = .ok em)) ∧
    ((EmailService.generateEmail user opts todayCount
        [mkMailTm mtH mtG, mkTempMail tmH tmG] now st).1 =
          .error (.failure allProvidersUnavailableMsg) ↔
      (¬ (∃ em, mtH = true ∧ mtG opts.customDomain = .ok em) ∧
        ¬ (∃ em, tmH = true ∧ tmG none = .ok em))) := by
  have hloop : EmailService.generateEmail user opts todayCount
      [mkMailTm mtH mtG, mkTempMail tmH tmG] now st =
      tryProviders user opts (getUserLimits user.subscription_tier) now
        [mkMailTm mtH mtG, mkTempMail tmH tmG] st [] := by
    unfold EmailService.generateEmail
    have h1 : ¬ ((getUserLimits user.subscription_tier).emailsPerDay ≤ todayCount) :=
      Nat.not_le.mpr hcount
    rcases hd : opts.customDomain with _ | d
    · simp [h1, hd]
    · have h2 : (getUserLimits user.subscription_tier).customDomains = true :=
        hdom (by simp [hd])
      rcases hp : PREMIUM_DOMAINS d with _ | req
      · simp [h1, hd, h2, hp]
      · have h3 := htier d req hd hp
        simp [h1, hd, h2, hp, h3]
  rw [hloop]
  cases mtH with
  | true =>
      rcases hm : mtG opts.customDomain with msg | em
      · cases tmH with
        | true =>
            rcases ht : tmG none with msg2 | em2
            · simp [tryProviders, mkMailTm, mkTempMail, optionIfIsSome, hm, ht]
            · simp [tryProviders, mkMailTm, mkTempMail, optionIfIsSome, hm, ht]
        | false =>
            simp [tryProviders, mkMailTm, mkTempMail, optionIfIsSome, hm]
      · simp [tryProviders, mkMailTm, mkTempMail, optionIfIsSome, hm]
  | false =>
      cases tmH with
      | true =>
          rcases ht : tmG none with msg2 | em2
          · simp [tryProviders, mkMailTm, mkTempMail, optionIfIsSome, ht]
          · simp [tryProviders, mkMailTm, mkTempMail, optionIfIsSome, ht]
      | false =>
          simp [tryProviders, mkMailTm, mkTempMail, optionIfIsSome]

/-- A Mail.tm network behavior that always throws. -/
def mtGdown : Option String → Except String String := fun _ => .error ("down")

/-- A TempMail.lol network behavior that always succeeds. -/
def tmGok : Option String → Except String String := fun _ => .ok ("x@tempmail.lol")

/-- Witness for C4: Mail.tm unhealthy, TempMail.lol healthy and
succeeding; the result carries the TempMail.lol name. -/
theorem generateEmail_provider_fallback_witness :
    ∃ res, (EmailService.generateEmail userW ⟨none, none⟩ 0
        [mkMailTm false mtGdown, mkTempMail true tmGok] 100 ⟨[], []⟩).1 = .ok res ∧
      res.provider = "TempMail.lol" := by
  have h := generateEmail_provider_fallback userW ⟨none, none⟩ 0 100 ⟨[], []⟩
    false true mtGdown tmGok (by decide) (by intro hc; cases hc)
    (by intro d req hd; cases hd)
  exact h.2.1 (by rintro ⟨em, hfalse, _⟩; cases hfalse) ⟨"x@tempmail.lol", rfl, rfl⟩

/-- The provider loop only produces `.ok` results whose `expiresAt` is
at most `now` plus the tier retention cap in milliseconds. -/
lemma tryProviders_ok_expiresAt (user : UserRec) (opts : GenOptions) (limits : UserLimits)
    (now : ℕ) (ps : List ProviderRun) :
    ∀ (st : ServiceState) (acc : List String) (res : GenResult) (st' : ServiceState)
      (contacted : List String),
      tryProviders user opts limits now ps st acc = (.ok res, st', contacted) →
      res.expiresAt ≤ now + limits.retentionHours * 60 * 60 * 1000 := by
  induction ps with
  | nil =>
      intro st acc res st' contacted h
      simp [tryProviders] at h
  | cons p rest ih =>
      intro st acc res st' contacted h
      rw [tryProviders] at h
      by_cases hh : p.healthy = true
      · rw [if_pos hh] at h
        rcases hg : p.generate (if opts.customDomain.isSome ∧ p.supportCustomDomains = true
            then opts.customDomain else none) with msg | em
        · rw [hg] at h
          exact ih _ _ _ _ _ h
        · rw [hg] at h
          simp only [Prod.mk.injEq, Except.ok.injEq] at h
          obtain ⟨h1, _, _⟩ := h
          subst h1
          show now + min (jsOrNat opts.retentionHours limits.retentionHours)
              limits.retentionHours * 60 * 60 * 1000 ≤
            now + limits.retentionHours * 60 * 60 * 1000
          gcongr
          exact min_le_right _ _
      · rw [if_neg hh] at h
        exact ih _ _ _ _ _ h

/-- C9: whenever `generateEmail` returns, the returned `expiresAt` is
at most the retentionHours cap of the tier after the call time, even when
`options.retentionHours` is larger. -/
theorem generateEmail_retention_cap (user : UserRec) (opts : GenOptions)
    (todayCount : ℕ) (providers : List ProviderRun) (now : ℕ) (st : ServiceState)
    (res : GenResult) (st' : ServiceState) (contacted : List String)
    (h : EmailService.generateEmail user opts todayCount providers now st =
      (.ok res, st', contacted)) :
    res.expiresAt ≤ now +
      (getUserLimits user.subscription_tier).retentionHours * 60 * 60 * 1000 := by
  unfold EmailService.generateEmail at h
  by_cases h1 : (getUserLimits user.subscription_tier).emailsPerDay ≤ todayCount
  · simp [h1] at h
  · rcases hd : opts.customDomain with _ | d
    · simp [h1, hd] at h
      exact tryProviders_ok_expiresAt _ _ _ _ _ _ _ _ _ _ h
    · by_cases hcd : (getUserLimits user.subscription_tier).customDomains = false
      · simp [h1, hd, hcd] at h
      · simp [h1, hd, hcd] at h
        rcases hp : PREMIUM_DOMAINS d with _ | req
        · simp [hp] at h
          exact tryProviders_ok_expiresAt _ _ _ _ _ _ _ _ _ _ h
        · simp [hp] at h
          by_cases hc : canAccessDomain user.subscription_tier req = false
          · simp [hc] at h
          · simp [hc] at h
            exact tryProviders_ok_expiresAt _ _ _ _ _ _ _ _ _ _ h

/-- A Mail.tm network behavior that always succeeds. -/
def mtGok : Option String → Except String String := fun _ => .ok ("a@mail.tm")

/-- Witness for C9: a free user requesting 50 retention hours is capped
at the single hour of the free tier. -/
theorem generateEmail_retention_cap_witness :
    (⟨"a@mail.tm", 3600000, "Mail.tm"⟩ : GenResult).expiresAt ≤
      0 + (getUserLimits userW.subscription_tier).retentionHours * 60 * 60 * 1000 := by
  have h : EmailService.generateEmail userW ⟨none, some 50⟩ 0 [mkMailTm true mtGok] 0
      ⟨[], []⟩ =
      (.ok ⟨"a@mail.tm", 3600000, "Mail.tm"⟩,
        ⟨[⟨"u1", "a@mail.tm", 3600000, "Mail.tm", none, 1⟩],
          [⟨"u1", "email_generated", "Mail.tm", false, 1, "free"⟩]⟩, ["Mail.tm"]) := by
    rfl
  exact generateEmail_retention_cap userW ⟨none, some 50⟩ 0 [mkMailTm true mtGok] 0
    ⟨[], []⟩ _ _ _ h

/-! ### Trial service — `TrialService` (src/unnamed/part_013) -/

/-- The `TrialStatus` interface; `startedAt`/`expiresAt` are optional
millisecond timestamps. -/
structure TrialStatus where
  isActive : Bool
  daysRemaining : ℕ
  features : List String
  hasUsedTrial : Bool
  startedAt : Option ℤ
  expiresAt : Option ℤ
deriving Repr, DecidableEq

/-- Constant `TRIAL_DURATION_DAYS` (part_013 line 11). -/
def TRIAL_DURATION_DAYS : ℕ := 14

/-- Embeds `getTrialFeatures` (part_013 lines 69-79). -/
def getTrialFeatures : List String :=
  ["7-day email retention",
    "Custom domains (techsci.dev, techsci.xyz)",
    "100 emails per day",
    "Email forwarding",
    "Priority support",
    "API access",
    "Bulk email creation"]

/-- Embeds `getTrialStatus` (part_013 lines 43-52), a `TODO` Supabase stub
that always reports an unused, inactive trial. -/
def TrialService.getTrialStatus : TrialStatus :=
  ⟨false, TRIAL_DURATION_DAYS, getTrialFeatures, false, none, none⟩

/-- Embeds `startTrial` (part_013 lines 13-41), abstracted over the existing
trial status it reads and the current time `now` in milliseconds. -/
def TrialService.startTrial (existingTrial : TrialStatus) (now : ℤ) :
    Except String TrialStatus :=
  if existingTrial.hasUsedTrial = true then
    .error ("Trial already used. Upgrade to continue using premium features.")
  else
    .ok ⟨true, TRIAL_DURATION_DAYS, getTrialFeatures, true, some now,
      some (now + (TRIAL_DURATION_DAYS : ℤ) * 24 * 60 * 60 * 1000)⟩

/-- Embeds `isSubscriptionActive` (part_013 lines 81-84):
`new Date(user.subscription_expires_at) > new Date()`. -/
def TrialService.isSubscriptionActive (user : UserRec) (now : ℤ) : Bool :=
  match user.subscription_expires_at with
  | none => false
  | some t => decide (now < t)

/-- Embeds `getEffectiveUserTier` (part_013 lines 54-67). -/
def TrialService.getEffectiveUserTier (user : UserRec) (trialStatus : TrialStatus)
    (now : ℤ) : String :=
  if user.subscription_tier ≠ "free" ∧ TrialService.isSubscriptionActive user now = true
  then user.subscription_tier
  else if trialStatus.isActive = true then "extended"
  else "free"

/-! ### API route — `POST /api/emails` (src/app/api/emails/route.ts) -/

/-- Modelled from the spec: the modules `@/lib/auth` (`getUser`,
`getUserProfile`, `createClient`) and `@/lib/pricing`
(`PremiumFeatureRequired`) are imported by the route but are not in the
tree.  Per the spec ("Errors are caught per-request and turned into
HTTP status codes (401/402/429/500)"), the authenticated user and
profile lookups are environment inputs and the
`PremiumFeatureRequired` of the pricing module is the error class the email service throws.
`bodyOk` is whether `request.json()` and the remaining awaited Supabase
calls complete without throwing (a throw lands in the outer catch);
`genResult` is the outcome of `generateEmail(profile, { customDomain })`;
`saveError` is whether the `temp_emails` insert reports an error. -/
structure RouteEnv where
  user : Option String
  profile : Option UserRec
  bodyOk : Bool
  genResult : Except EmailErr String
  saveError : Bool

/-- The HTTP status code returned by `POST` (route.ts lines 7-131). -/
def emailsPOST (env : RouteEnv) : ℕ :=
  match env.user with
  | none => 401
  | some _ =>
    match env.profile with
    | none => 404
    | some _ =>
      if env.bodyOk = false then 500
      else
        match env.genResult with
        | .error (.premiumFeatureRequired _ _) => 402
        | .error (.failure _) => 500
        | .ok _ => if env.saveError = true then 500 else 200

end TempEmailPro

namespace TempEmailPro

/-! ### Theorems about the trial service and the API route -/

/-- C7: `startTrial` throws iff the existing trial status has
`hasUsedTrial`; otherwise it returns an active 14-day trial whose
`expiresAt` is exactly `14 * 24 * 60 * 60 * 1000` ms after
`startedAt = now`. -/
theorem startTrial_spec (existingTrial : TrialStatus) (now : ℤ) :
    ((∃ e, TrialService.startTrial existingTrial now = .error e) ↔
      existingTrial.hasUsedTrial = true) ∧
    (existingTrial.hasUsedTrial = false →
      ∃ ts, TrialService.startTrial existingTrial now = .ok ts ∧
        ts.isActive = true ∧ ts.daysRemaining = 14 ∧ ts.hasUsedTrial = true ∧
        ts.startedAt = some now ∧
        ts.expiresAt = some (now + 14 * 24 * 60 * 60 * 1000)) := by
  cases hu : existingTrial.hasUsedTrial with
  | true =>
      refine ⟨⟨fun _ => rfl, ?_⟩, ?_⟩
      · intro _
        exact ⟨"Trial already used. Upgrade to continue using premium features.",
          by simp [TrialService.startTrial, hu]⟩
      · intro hfalse
        simp at hfalse
  | false =>
      constructor
      · constructor
        · rintro ⟨e, he⟩
          simp [TrialService.startTrial, hu] at he
        · intro htrue
          simp at htrue
      · intro _
        refine ⟨⟨true, TRIAL_DURATION_DAYS, getTrialFeatures, true, some now,
          some (now + (TRIAL_DURATION_DAYS : ℤ) * 24 * 60 * 60 * 1000)⟩,
          by simp [TrialService.startTrial, hu], rfl, rfl, rfl, rfl, ?_⟩
        norm_num [TRIAL_DURATION_DAYS]

/-- Witness for C7: starting a trial from the stub status (which has
`hasUsedTrial = false`) at time 1000. -/
theorem startTrial_spec_witness :
    ∃ ts, TrialService.startTrial TrialService.getTrialStatus 1000 = .ok ts ∧
      ts.isActive = true ∧ ts.daysRemaining = 14 ∧ ts.hasUsedTrial = true ∧
      ts.startedAt = some 1000 ∧
      ts.expiresAt = some (1000 + 14 * 24 * 60 * 60 * 1000) := by
  exact (startTrial_spec TrialService.getTrialStatus 1000).2 (by rfl)

/-- Predicate `isSubscriptionActive` is true exactly when `subscription_expires_at`
is set and lies in the future. -/
lemma isSubscriptionActive_iff (user : UserRec) (now : ℤ) :
    TrialService.isSubscriptionActive user now = true ↔
      ∃ t, user.subscription_expires_at = some t ∧ now < t := by
  unfold TrialService.isSubscriptionActive
  rcases h : user.subscription_expires_at with _ | t
  · simp
  · simp [decide_eq_true_eq]

/-- C8: `getEffectiveUserTier` returns the paid tier when it is not
free and the subscription has an unexpired expiry; otherwise
`extended` during an active trial; otherwise `free`. -/
theorem getEffectiveUserTier_spec (user : UserRec) (trialStatus : TrialStatus)
    (now : ℤ) :
    (user.subscription_tier ≠ "free" →
      (∃ t, user.subscription_expires_at = some t ∧ now < t) →
      TrialService.getEffectiveUserTier user trialStatus now = user.subscription_tier) ∧
    ((user.subscription_tier = "free" ∨
        ¬ (∃ t, user.subscription_expires_at = some t ∧ now < t)) →
      trialStatus.isActive = true →
      TrialService.getEffectiveUserTier user trialStatus now = "extended") ∧
    ((user.subscription_tier = "free" ∨
        ¬ (∃ t, user.subscription_expires_at = some t ∧ now < t)) →
      trialStatus.isActive = false →
      TrialService.getEffectiveUserTier user trialStatus now = "free") := by
  refine ⟨?_, ?_, ?_⟩
  · intro h1 h2
    have ha : TrialService.isSubscriptionActive user now = true :=
      (isSubscriptionActive_iff user now).mpr h2
    simp [TrialService.getEffectiveUserTier, h1, ha]
  · intro hor ht
    have hcond : ¬ (user.subscription_tier ≠ "free" ∧
        TrialService.isSubscriptionActive user now = true) := by
      rcases hor with h | h
      · exact fun hc => hc.1 h
      · exact fun hc => h ((isSubscriptionActive_iff user now).mp hc.2)
    simp [TrialService.getEffectiveUserTier, hcond, ht]
  · intro hor ht
    have hcond : ¬ (user.subscription_tier ≠ "free" ∧
        TrialService.isSubscriptionActive user now = true) := by
      rcases hor with h | h
      · exact fun hc => hc.1 h
      · exact fun hc => h ((isSubscriptionActive_iff user now).mp hc.2)
    simp [TrialService.getEffectiveUserTier, hcond, ht]

/-- Witness for C8: a pro user with an unexpired subscription keeps the
pro tier. -/
theorem getEffectiveUserTier_spec_witness :
    TrialService.getEffectiveUserTier ⟨"u2", "pro", some 2000⟩
      TrialService.getTrialStatus 1000 = "pro" := by
  exact (getEffectiveUserTier_spec ⟨"u2", "pro", some 2000⟩
    TrialService.getTrialStatus 1000).1 (by decide) ⟨2000, rfl, by decide⟩

/-- A request environment with an authenticated user but no profile
row. -/
def envNoProfile : RouteEnv := ⟨some ("u1"), none, true, .ok ("a@b.c"), false⟩

/-- C3 counterexample: with a user but no profile the route responds
404, which is not among 401/402/429/500. -/
theorem emailsPOST_status_counterexample :
    emailsPOST envNoProfile ≠ 200 ∧
    emailsPOST envNoProfile ∉ ([401, 402, 429, 500] : List ℕ) := by decide

/-- C3 (amended): every non-success status is 401, 402, 404 or 500:
401 exactly when there is no authenticated user, 404 exactly when there
is a user but no profile, and 402 exactly when generation raised
`PremiumFeatureRequired`. -/
theorem emailsPOST_status (env : RouteEnv) :
    (emailsPOST env ≠ 200 → emailsPOST env ∈ ([401, 402, 404, 500] : List ℕ)) ∧
    (emailsPOST env = 401 ↔ env.user = none) ∧
    (emailsPOST env = 404 ↔ env.user ≠ none ∧ env.profile = none) ∧
    (emailsPOST env = 402 ↔ env.user ≠ none ∧ env.profile ≠ none ∧
      env.bodyOk = true ∧
      ∃ m u, env.genResult = .error (.premiumFeatureRequired m u)) := by
  obtain ⟨user, profile, bodyOk, genResult, saveError⟩ := env
  rcases genResult with e | v
  · cases e <;> cases user <;> cases profile <;> cases bodyOk <;> cases saveError <;>
      simp [emailsPOST]
  · cases user <;> cases profile <;> cases bodyOk <;> cases saveError <;>
      simp [emailsPOST]

/-- Witness for the amended C3 at a concrete unauthorized request. -/
theorem emailsPOST_status_witness :
    emailsPOST ⟨none, none, true, .ok ("a@b.c"), false⟩ ∈
      ([401, 402, 404, 500] : List ℕ) := by
  exact (emailsPOST_status ⟨none, none, true, .ok ("a@b.c"), false⟩).1 (by decide)

/-! ### A/B testing — `ABTestingService` (src/hooks/useABTesting.ts) -/

/-- Truncation of an integer to a 32-bit signed wraparound value:
`hash = hash & hash` and the implicit `ToInt32` of `<<` in JavaScript. -/
def toInt32 (x : ℤ) : ℤ := (x + 2 ^ 31) % 2 ^ 32 - 2 ^ 31

/-- One character step of `hash` (useABTesting.ts lines 84-92):
`hash = ((hash << 5) - hash) + char; hash = hash & hash`. -/
def hashStep (h : ℤ) (c : ℕ) : ℤ := toInt32 (toInt32 (h * 32) - h + (c : ℤ))

/-- The char codes of a string (`charCodeAt`; all strings involved are
ASCII, where UTF-16 code units and code points coincide). -/
def strCodes (s : String) : List ℕ := s.data.map Char.toNat

/-- Computes `hash(str)` followed by `Math.abs` (lines 84-92). -/
def jsHash (s : String) : ℕ := ((strCodes s).foldl hashStep 0).natAbs

/-- The `ABVariant` interface; `config` is modelled as key-value
pairs. -/
structure ABVariant where
  id : String
  name : String
  weight : ℕ
  config : List (String × String)
deriving Repr, DecidableEq

/-- The `ABTest` interface. -/
structure ABTest where
  id : String
  name : String
  variants : List ABVariant
  trafficAllocation : ℚ
  isActive : Bool
  startDate : String
  endDate : Option String
  description : Option String
deriving Repr, DecidableEq

/-- The `ABTestAssignment` interface. -/
structure ABTestAssignment where
  testId : String
  variantId : String
  assignedAt : ℕ
  sticky : Bool
deriving Repr, DecidableEq

/-- Embeds `Map.set` on the `assignments` map, modelled as an association
list: the new binding replaces any existing binding of the key. -/
def mapSet (m : List (String × ABTestAssignment)) (k : String)
    (a : ABTestAssignment) : List (String × ABTestAssignment) :=
  (k, a) :: m.filter (fun p => p.1 ≠ k)

/-- Embeds `isUserInTest` (lines 94-99): `(hash(userId+testId) % 100) / 100 <
trafficAllocation`. -/
def isUserInTest (userId testId : String) (trafficAllocation : ℚ) : Bool :=
  decide (((jsHash (userId ++ testId) % 100 : ℕ) : ℚ) / 100 < trafficAllocation)

/-- The accumulator loop of `selectVariant` (lines 109-115):
`currentWeight += variant.weight; if (bucket < currentWeight) return`. -/
def pickVariant (bucket : ℕ) : List ABVariant → ℕ → Option ABVariant
  | [], _ => none
  | v :: rest, currentWeight =>
      if bucket < currentWeight + v.weight then some v
      else pickVariant bucket rest (currentWeight + v.weight)

/-- Embeds `selectVariant` (lines 101-119); the trailing
`return test.variants[0]` fallback is the `head?` case. -/
def selectVariant (userId : String) (test : ABTest) : Option ABVariant :=
  let totalWeight := test.variants.foldl (fun sum v => sum + v.weight) 0
  let hashValue := jsHash (userId ++ test.id ++ "variant")
  let bucket := hashValue % totalWeight
  match pickVariant bucket test.variants 0 with
  | some v => some v
  | none => test.variants.head?

/-- The tail of `getVariant` (lines 140-153): select a variant and
store a sticky assignment for the test (in JavaScript an empty variant
list would throw here dereferencing `selectedVariant.id`; that case
returns the state unchanged). -/
def assignNewVariant (userId : String) (now : ℕ) (test : ABTest)
    (assignments : List (String × ABTestAssignment)) :
    Option ABVariant × List (String × ABTestAssignment) :=
  match selectVariant userId test with
  | some v => (some v, mapSet assignments test.id ⟨test.id, v.id, now, true⟩)
  | none => (none, assignments)

/-- Embeds `getVariant` (lines 121-154), threading the
`assignments` map of the service; `now` is `Date.now()` and `userId` the stored
`ab_user_id`. -/
def ABTestingService.getVariant (userId : String) (now : ℕ) (test : ABTest)
    (assignments : List (String × ABTestAssignment)) :
    Option ABVariant × List (String × ABTestAssignment) :=
  if test.isActive = false then (test.variants.head?, assignments)
  else if isUserInTest userId test.id test.trafficAllocation = false then
    (test.variants.head?, assignments)
  else
    match assignments.lookup test.id with
    | some a =>
        if a.sticky = true then
          match test.variants.find? (fun v => v.id == a.variantId) with
          | some v => (some v, assignments)
          | none => assignNewVariant userId now test assignments
        else assignNewVariant userId now test assignments
    | none => assignNewVariant userId now test assignments

end TempEmailPro

namespace TempEmailPro

/-! ### Theorems about A/B variant assignment -/

/-- The accumulator of the variant loop only grows. -/
lemma foldl_weight_le (l : List ABVariant) :
    ∀ acc : ℕ, acc ≤ l.foldl (fun sum v => sum + v.weight) acc := by
  induction l with
  | nil => intro acc; exact le_refl _
  | cons v t ih =>
      intro acc
      calc acc ≤ acc + v.weight := Nat.le_add_right _ _
        _ ≤ t.foldl (fun sum v => sum + v.weight) (acc + v.weight) := ih _
        _ = (v :: t).foldl (fun sum v => sum + v.weight) acc := rfl

/-- A nonempty list of positive weights has positive total weight. -/
lemma totalWeight_pos (l : List ABVariant) (hne : l ≠ [])
    (hw : ∀ v ∈ l, 0 < v.weight) :
    0 < l.foldl (fun sum v => sum + v.weight) 0 := by
  cases l with
  | nil => exact absurd rfl hne
  | cons v t =>
      have h1 : 0 < v.weight := hw v (List.mem_cons_self _ _)
      calc 0 < v.weight := h1
        _ = 0 + v.weight := (Nat.zero_add _).symm
        _ ≤ t.foldl (fun sum v => sum + v.weight) (0 + v.weight) := foldl_weight_le _ _
        _ = (v :: t).foldl (fun sum v => sum + v.weight) 0 := rfl

/-- If the bucket lies below the running total, the loop returns an
element of the list. -/
lemma pickVariant_some (bucket : ℕ) :
    ∀ (l : List ABVariant) (acc : ℕ), acc ≤ bucket →
      bucket < l.foldl (fun sum v => sum + v.weight) acc →
      ∃ v, pickVariant bucket l acc = some v ∧ v ∈ l := by
  intro l
  induction l with
  | nil =>
      intro acc h1 h2
      simp only [List.foldl_nil] at h2
      exact absurd h2 (Nat.not_lt.mpr h1)
  | cons v t ih =>
      intro acc h1 h2
      by_cases hb : bucket < acc + v.weight
      · exact ⟨v, by simp [pickVariant, hb], List.mem_cons_self _ _⟩
      · have h1x : acc + v.weight ≤ bucket := Nat.not_lt.mp hb
        have h2x : bucket < t.foldl (fun sum v => sum + v.weight) (acc + v.weight) := h2
        obtain ⟨w, hw1, hw2⟩ := ih (acc + v.weight) h1x h2x
        exact ⟨w, by simp [pickVariant, hb, hw1], List.mem_cons_of_mem _ hw2⟩

/-- The selector `selectVariant` returns a member of the variant list whenever the
total weight is positive. -/
lemma selectVariant_mem (userId : String) (test : ABTest)
    (h : 0 < test.variants.foldl (fun sum v => sum + v.weight) 0) :
    ∃ v, selectVariant userId test = some v ∧ v ∈ test.variants := by
  have hb : jsHash (userId ++ test.id ++ "variant") %
      test.variants.foldl (fun sum v => sum + v.weight) 0 <
      test.variants.foldl (fun sum v => sum + v.weight) 0 := Nat.mod_lt _ h
  obtain ⟨v, hv, hmem⟩ := pickVariant_some _ test.variants 0 (Nat.zero_le _) hb
  exact ⟨v, by simp [selectVariant, hv], hmem⟩

/-- With pairwise-distinct variant ids, `find` by the id of a member
returns that member. -/
lemma find_by_id (l : List ABVariant) (v : ABVariant)
    (hids : (l.map (fun x => x.id)).Nodup) (hmem : v ∈ l) :
    l.find? (fun x => x.id == v.id) = some v := by
  induction l with
  | nil => cases hmem
  | cons a t ih =>
      rw [List.map_cons, List.nodup_cons] at hids
      rcases List.mem_cons.mp hmem with h | h
      · subst h
        simp [List.find?]
      · have hne : (a.id == v.id) = false := by
          apply beq_eq_false_iff_ne.mpr
          intro he
          apply hids.1
          rw [he]
          exact List.mem_map_of_mem (fun x => x.id) h
        simp only [List.find?, hne]
        exact ih hids.2 h

/-- Composing `Map.set` with `Map.get` on the same key. -/
lemma lookup_mapSet (m : List (String × ABTestAssignment)) (k : String)
    (a : ABTestAssignment) : (mapSet m k a).lookup k = some a := by
  simp [mapSet, List.lookup]

/-- A call of `getVariant` right after a sticky assignment of a
member id returns that member (given distinct ids). -/
lemma getVariant_sticky_lookup (userId : String) (now now2 : ℕ) (test : ABTest)
    (assignments : List (String × ABTestAssignment)) (v : ABVariant)
    (hactive : test.isActive = true)
    (hin : isUserInTest userId test.id test.trafficAllocation = true)
    (hids : (test.variants.map (fun x => x.id)).Nodup)
    (hmem : v ∈ test.variants) :
    (ABTestingService.getVariant userId now2 test
      (mapSet assignments test.id ⟨test.id, v.id, now, true⟩)).1 = some v := by
  unfold ABTestingService.getVariant
  simp [hactive, hin, lookup_mapSet, find_by_id test.variants v hids hmem]

set_option maxRecDepth 16000

/-- Two variants sharing the id `a` but with different payloads. -/
def dupVariantA : ABVariant := ⟨"a", "A1", 1, [("k", "x")]⟩

/-- The second variant with the duplicated id. -/
def dupVariantB : ABVariant := ⟨"a", "A2", 1, [("k", "y")]⟩

/-- An active, fully-allocated test whose two variants share an id. -/
def dupTest : ABTest :=
  ⟨"dup_test", "Duplicate id test", [dupVariantA, dupVariantB], 1, true,
    "2025-01-01", none, none⟩

/-- C6 counterexample: for the stored user id `u1` and an active test
with non-empty variants of positive weights and full allocation, the
first `getVariant` call hashes into the second variant while the
second call resolves the sticky assignment by id and returns the first
variant — two calls return different variants. -/
theorem getVariant_counterexample :
    dupTest.isActive = true ∧ dupTest.trafficAllocation = 1 ∧
    dupTest.variants ≠ [] ∧ (∀ v ∈ dupTest.variants, 0 < v.weight) ∧
    (ABTestingService.getVariant ("u1") 5 dupTest []).1 = some dupVariantB ∧
    (ABTestingService.getVariant ("u1") 6 dupTest
      (ABTestingService.getVariant ("u1") 5 dupTest []).2).1 = some dupVariantA ∧
    dupVariantA ≠ dupVariantB := by
  have hin : isUserInTest ("u1") ("dup_test") 1 = true := by
    unfold isUserInTest
    rw [decide_eq_true_eq]
    rw [show jsHash ("u1" ++ "dup_test") % 100 = 30 from by decide]
    norm_num
  have hsel : selectVariant ("u1") dupTest = some dupVariantB := by decide
  have hfirst : ABTestingService.getVariant ("u1") 5 dupTest [] =
      (some dupVariantB, [(("dup_test" : String),
        (⟨"dup_test", "a", 5, true⟩ : ABTestAssignment))]) := by
    unfold ABTestingService.getVariant assignNewVariant
    rw [show dupTest.isActive = true from rfl,
      show dupTest.id = ("dup_test" : String) from rfl,
      show dupTest.trafficAllocation = 1 from rfl, hin]
    simp [hsel, mapSet, dupVariantB]
  have hsecond : (ABTestingService.getVariant ("u1") 6 dupTest
      [(("dup_test" : String), (⟨"dup_test", "a", 5, true⟩ : ABTestAssignment))]).1 =
      some dupVariantA := by
    unfold ABTestingService.getVariant
    rw [show dupTest.isActive = true from rfl,
      show dupTest.id = ("dup_test" : String) from rfl,
      show dupTest.trafficAllocation = 1 from rfl, hin]
    simp [List.lookup, List.find?, dupTest, dupVariantA, dupVariantB]
  refine ⟨rfl, rfl, by decide, by decide, by rw [hfirst], ?_, by decide⟩
  rw [hfirst]
  exact hsecond

/-- C6 (amended): for an active test with a non-empty variant list of
positive weights, pairwise-distinct variant ids and trafficAllocation
1.0, and a fixed stored user id, two successive `getVariant` calls
return the same variant, an element of the variant list, from any
starting assignment state. -/
theorem getVariant_deterministic (userId : String) (now now2 : ℕ) (test : ABTest)
    (assignments : List (String × ABTestAssignment))
    (hactive : test.isActive = true)
    (halloc : test.trafficAllocation = 1)
    (hne : test.variants ≠ [])
    (hw : ∀ v ∈ test.variants, 0 < v.weight)
    (hids : (test.variants.map (fun v => v.id)).Nodup) :
    ∃ v, v ∈ test.variants ∧
      (ABTestingService.getVariant userId now test assignments).1 = some v ∧
      (ABTestingService.getVariant userId now2 test
        (ABTestingService.getVariant userId now test assignments).2).1 = some v := by
  have htw : 0 < test.variants.foldl (fun sum v => sum + v.weight) 0 :=
    totalWeight_pos _ hne hw
  have hin : isUserInTest userId test.id test.trafficAllocation = true := by
    unfold isUserInTest
    rw [halloc, decide_eq_true_eq, div_lt_one (by norm_num)]
    have h100 : jsHash (userId ++ test.id) % 100 < 100 :=
      Nat.mod_lt _ (by norm_num)
    exact_mod_cast h100
  rcases hl : assignments.lookup test.id with _ | a
  · obtain ⟨v, hsv, hmem⟩ := selectVariant_mem userId test htw
    have hfirst : ABTestingService.getVariant userId now test assignments =
        (some v, mapSet assignments test.id ⟨test.id, v.id, now, true⟩) := by
      unfold ABTestingService.getVariant
      simp [hactive, hin, hl, assignNewVariant, hsv]
    refine ⟨v, hmem, by rw [hfirst], ?_⟩
    rw [hfirst]
    exact getVariant_sticky_lookup userId now now2 test assignments v hactive hin
      hids hmem
  · by_cases hs : a.sticky = true
    · rcases hf : test.variants.find? (fun v => v.id == a.variantId) with _ | v
      · obtain ⟨v, hsv, hmem⟩ := selectVariant_mem userId test htw
        have hfirst : ABTestingService.getVariant userId now test assignments =
            (some v, mapSet assignments test.id ⟨test.id, v.id, now, true⟩) := by
          unfold ABTestingService.getVariant
          simp [hactive, hin, hl, hs, hf, assignNewVariant, hsv]
        refine ⟨v, hmem, by rw [hfirst], ?_⟩
        rw [hfirst]
        exact getVariant_sticky_lookup userId now now2 test assignments v hactive hin
          hids hmem
      · have hvmem : v ∈ test.variants := List.mem_of_find?_eq_some hf
        have hfirst : ABTestingService.getVariant userId now test assignments =
            (some v, assignments) := by
          unfold ABTestingService.getVariant
          simp [hactive, hin, hl, hs, hf]
        refine ⟨v, hvmem, by rw [hfirst], ?_⟩
        rw [hfirst]
        unfold ABTestingService.getVariant
        simp [hactive, hin, hl, hs, hf]
    · obtain ⟨v, hsv, hmem⟩ := selectVariant_mem userId test htw
      have hfirst : ABTestingService.getVariant userId now test assignments =
          (some v, mapSet assignments test.id ⟨test.id, v.id, now, true⟩) := by
        unfold ABTestingService.getVariant
        simp [hactive, hin, hl, hs, assignNewVariant, hsv]
      refine ⟨v, hmem, by rw [hfirst], ?_⟩
      rw [hfirst]
      exact getVariant_sticky_lookup userId now now2 test assignments v hactive hin
        hids hmem

/-- The predefined `UPGRADE_BUTTON_TEXT` test of `CONVERSION_TESTS`
(useABTesting.ts lines 300-327). -/
def UPGRADE_BUTTON_TEXT : ABTest :=
  ⟨"upgrade_button_text_v1", "Upgrade Button Text",
    [⟨"control", "Control", 33, [("buttonText", "Upgrade Now")]⟩,
      ⟨"benefit_focused", "Benefit Focused", 33, [("buttonText", "Get Unlimited Emails")]⟩,
      ⟨"urgency_focused", "Urgency Focused", 34, [("buttonText", "Claim Limited Offer")]⟩],
    1, true, "2025-01-01", none, none⟩

/-- Witness for the amended C6 on the predefined upgrade-button test
and a concrete stored user id. -/
theorem getVariant_deterministic_witness :
    ∃ v, v ∈ UPGRADE_BUTTON_TEXT.variants ∧
      (ABTestingService.getVariant ("user_w") 1 UPGRADE_BUTTON_TEXT []).1 = some v ∧
      (ABTestingService.getVariant ("user_w") 2 UPGRADE_BUTTON_TEXT
        (ABTestingService.getVariant ("user_w") 1 UPGRADE_BUTTON_TEXT []).2).1 =
        some v := by
  exact getVariant_deterministic ("user_w") 1 2 UPGRADE_BUTTON_TEXT [] rfl rfl
    (by decide) (by decide) (by decide)

end TempEmailPro
